import Mathlib

/-!
Verification development for the shuttlebox thermoregulation control
repository.  The definitions below are shallow embeddings of the Python
source (src/shuttlebox_gui_DAQ_M.py and src/tc08_controller.py):
temperatures and wall-clock times are modelled as rationals, fallible
reads as `Option`, the four digital-output relays as explicit booleans.
External collaborators (tkinter widgets, the NI-DAQ driver, the serial
port, matplotlib) are represented only through the data they deliver to
or receive from the control logic.  Wall-clock bookkeeping fields that
never feed back into control decisions (`last_command_time`) are not part
of the modelled state.
-/

/-- The four relay lines of `DAQTempController.line_mapping`:
HEAT, COOL, BHEAT, BCOOL. -/
inductive RelayName where
  | HEAT
  | COOL
  | BHEAT
  | BCOOL
deriving DecidableEq

/-- One boolean per relay line, used both for desired and for confirmed
relay state (`DAQTempController.relay_states` / `desired_states`) and for
task presence. -/
structure Relays where
  heat : Bool
  cool : Bool
  bheat : Bool
  bcool : Bool
deriving DecidableEq

/-- Read one relay's boolean. -/
def Relays.get (r : Relays) : RelayName → Bool
  | RelayName.HEAT => r.heat
  | RelayName.COOL => r.cool
  | RelayName.BHEAT => r.bheat
  | RelayName.BCOOL => r.bcool

/-- Update one relay's boolean. -/
def Relays.set (r : Relays) : RelayName → Bool → Relays
  | RelayName.HEAT, v => { r with heat := v }
  | RelayName.COOL, v => { r with cool := v }
  | RelayName.BHEAT, v => { r with bheat := v }
  | RelayName.BCOOL, v => { r with bcool := v }

/-- All four relays off. -/
def Relays.allOff : Relays := ⟨false, false, false, false⟩

/-- All four entries true (used for task presence after `connect`). -/
def Relays.allOn : Relays := ⟨true, true, true, true⟩

/-- State of `DAQTempController`: confirmed relay states (`relay_states`),
desired relay states (`desired_states`), and which DAQ tasks exist
(`self.tasks`, one per relay line). -/
structure DAQState where
  relay_states : Relays
  desired_states : Relays
  tasks : Relays
deriving DecidableEq

/-- The controller state right after a successful `connect`: all relays
off, all four tasks present. -/
def DAQState.connectedInit : DAQState :=
  { relay_states := Relays.allOff, desired_states := Relays.allOff, tasks := Relays.allOn }

/-- `DAQTempController._write_digital_line`: when the task for the relay
exists and the hardware write succeeds (`writeOk`), both the confirmed and
the desired state of that relay are set to the written value and the call
returns true; otherwise the state is left unchanged and the call returns
false. -/
def write_digital_line (st : DAQState) (r : RelayName) (v : Bool) (writeOk : Bool) :
    DAQState × Bool :=
  if st.tasks.get r && writeOk then
    ({ st with relay_states := st.relay_states.set r v,
               desired_states := st.desired_states.set r v }, true)
  else
    (st, false)

/-- `DAQTempController.emergency_stop`: write False to every relay line in
the order HEAT, COOL, BHEAT, BCOOL; each write carries its own success
flag. -/
def daq_emergency_stop (st : DAQState) (okH okC okBH okBC : Bool) : DAQState :=
  (write_digital_line
    (write_digital_line
      (write_digital_line
        (write_digital_line st RelayName.HEAT false okH).1
        RelayName.COOL false okC).1
      RelayName.BHEAT false okBH).1
    RelayName.BCOOL false okBC).1

/-- The public mutating operations of `DAQTempController`, each carrying
the success flag(s) of its underlying digital write(s). -/
inductive DAQOp where
  | set_heating (v ok : Bool)
  | set_cooling (v ok : Bool)
  | set_buffer_heating (v ok : Bool)
  | set_buffer_cooling (v ok : Bool)
  | emergency_stop (okH okC okBH okBC : Bool)
deriving DecidableEq

/-- Apply one `DAQTempController` operation. -/
def DAQState.applyOp (st : DAQState) : DAQOp → DAQState
  | DAQOp.set_heating v ok => (write_digital_line st RelayName.HEAT v ok).1
  | DAQOp.set_cooling v ok => (write_digital_line st RelayName.COOL v ok).1
  | DAQOp.set_buffer_heating v ok => (write_digital_line st RelayName.BHEAT v ok).1
  | DAQOp.set_buffer_cooling v ok => (write_digital_line st RelayName.BCOOL v ok).1
  | DAQOp.emergency_stop a b c d => daq_emergency_stop st a b c d

/-- Run a sequence of `DAQTempController` operations. -/
def DAQState.run (st : DAQState) (ops : List DAQOp) : DAQState :=
  ops.foldl DAQState.applyOp st

/-- One entry of the dictionary returned by
`DAQTempController.get_relay_sync_status` (the `time_since_command`
wall-clock field is not modelled). -/
structure RelaySyncStatus where
  actual : Bool
  desired : Bool
  synced : Bool
  timeout : Bool
deriving DecidableEq

/-- `DAQTempController.get_relay_sync_status` for one relay: reports the
confirmed and desired state and the constants `synced = True`,
`timeout = False` (DAQ writes are immediate). -/
def get_relay_sync_status (st : DAQState) (r : RelayName) : RelaySyncStatus :=
  { actual := st.relay_states.get r,
    desired := st.desired_states.get r,
    synced := true,
    timeout := false }

/-- The three automated-control mode flags of `ShuttleboxGUI`; Manual mode
is all three false. -/
structure ControlFlags where
  static_control_active : Bool
  dynamic_control_active : Bool
  difference_control_active : Bool
deriving DecidableEq

/-- The part of `ShuttleboxGUI` state affected by the GUI-level
`emergency_stop`: the DAQ controller and the mode flags. -/
structure GuiDaqState where
  daq : DAQState
  flags : ControlFlags
deriving DecidableEq

/-- `ShuttleboxGUI.emergency_stop`: command all four relays off through
`DAQTempController.emergency_stop`, then clear the static, dynamic and
difference control flags (back to Manual mode). -/
def gui_emergency_stop (st : GuiDaqState) (okH okC okBH okBC : Bool) : GuiDaqState :=
  { daq := daq_emergency_stop st.daq okH okC okBH okBC,
    flags := ⟨false, false, false⟩ }

/-- State of `SerialDevice` relevant to heartbeat-based health
classification: the basic connection flag, the time of the last received
HEARTBEAT message (None before the first one), and the sticky
`connection_lost` flag. -/
structure SerialDevice where
  connected : Bool
  last_heartbeat : Option ℚ
  connection_lost : Bool
deriving DecidableEq

/-- `SerialDevice.heartbeat_timeout` = 15 seconds (3 missed heartbeats). -/
def heartbeat_timeout : ℚ := 15

/-- The HEARTBEAT branch of `SerialDevice._read_messages`: record the
arrival time and clear `connection_lost`. -/
def receive_heartbeat (st : SerialDevice) (now : ℚ) : SerialDevice :=
  { st with last_heartbeat := some now, connection_lost := false }

/-- `SerialDevice.is_connection_healthy` evaluated at wall-clock time
`now`: with no heartbeat ever seen it reports the basic connection flag;
otherwise a silence longer than the timeout marks the connection lost and
reports unhealthy, and within the timeout it reports
`connected and not connection_lost`.  Returns the verdict together with
the (possibly updated) device state. -/
def is_connection_healthy (st : SerialDevice) (now : ℚ) : Bool × SerialDevice :=
  match st.last_heartbeat with
  | none => (st.connected, st)
  | some hb =>
      if now - hb > heartbeat_timeout then
        (false, { st with connection_lost := true })
      else
        (st.connected && !st.connection_lost, st)

/-- The consecutive-failure bookkeeping of `TC08Controller.read_temperatures`
for one read cycle: `channel_errors` lists, per configured channel, whether
that channel's reading carried an error.  When every channel errored the
consecutive counter is incremented, otherwise it is reset to zero. -/
def read_temperatures_failures (consecutive : ℕ) (channel_errors : List Bool) : ℕ :=
  if channel_errors.all (fun e => e) then consecutive + 1 else 0

/-- Fold `read_temperatures_failures` over a sequence of read cycles. -/
def run_read_cycles (consecutive : ℕ) (cycles : List (List Bool)) : ℕ :=
  cycles.foldl read_temperatures_failures consecutive

/-- `TC08Controller.needs_reconnection`: true once the consecutive-failure
counter has reached the threshold (default 5). -/
def needs_reconnection (consecutive failure_threshold : ℕ) : Bool :=
  decide (failure_threshold ≤ consecutive)

/-- The two possible values of the `start_side` combobox. -/
inductive StartSide where
  | warm
  | cold
deriving DecidableEq

/-- The numeric control parameters read from the GUI entry fields
(`start_temp_var`, `hysteresis_var`, `temp_diff_var`, `start_side_var`). -/
structure StaticParams where
  start_temp : ℚ
  hysteresis : ℚ
  temp_diff : ℚ
  start_side : StartSide
deriving DecidableEq

/-- The parameter validation performed in `toggle_static_control`:
hysteresis positive and at most 5, temperature difference positive and at
most 20, start temperature within 5..40 (the side value always comes from
a two-valued combobox, so its membership check always passes). -/
def valid_static_params (p : StaticParams) : Prop :=
  0 < p.hysteresis ∧ 0 < p.temp_diff ∧ p.hysteresis ≤ 5 ∧ p.temp_diff ≤ 20 ∧
    5 ≤ p.start_temp ∧ p.start_temp ≤ 40

instance (p : StaticParams) : Decidable (valid_static_params p) := by
  unfold valid_static_params
  infer_instance

/-- The parameter validation performed in `toggle_dynamic_control`:
temperature difference positive and at most 20. -/
def valid_dynamic_params (temp_diff : ℚ) : Prop :=
  0 < temp_diff ∧ temp_diff ≤ 20

instance (td : ℚ) : Decidable (valid_dynamic_params td) := by
  unfold valid_dynamic_params
  infer_instance

/-- A relay command: one `set_heating` / `set_cooling` /
`set_buffer_heating` / `set_buffer_cooling` call, as (line, value). -/
abbrev RelayCmd := RelayName × Bool

/-- Apply a sequence of relay commands to a relay state (each underlying
DAQ write assumed successful). -/
def apply_cmds (r : Relays) (cmds : List RelayCmd) : Relays :=
  cmds.foldl (fun a c => a.set c.1 c.2) r

/-- The command sequence issued by `DAQTempController.emergency_stop`:
all four relays off, in line-mapping order. -/
def emergency_stop_cmds : List RelayCmd :=
  [(RelayName.HEAT, false), (RelayName.COOL, false),
   (RelayName.BHEAT, false), (RelayName.BCOOL, false)]

/-- The warm and cold target temperatures computed by
`perform_static_temperature_control` from the start side. -/
def static_targets (p : StaticParams) : ℚ × ℚ :=
  match p.start_side with
  | StartSide.warm => (p.start_temp, p.start_temp - p.temp_diff)
  | StartSide.cold => (p.start_temp + p.temp_diff, p.start_temp)

/-- `ShuttleboxGUI.perform_static_temperature_control`, as the list of
relay commands one evaluation issues.  With either side average
unavailable it returns early with no commands.  Heating turns on when the
warm average is more than `hysteresis` below the warm target and off once
it exceeds the target; cooling mirrors this on the cold side; the buffer
pair turns on when the actual side difference exceeds
`temp_diff + hysteresis` and off when it is below `temp_diff`. -/
def perform_static_temperature_control (p : StaticParams)
    (warm_avg cold_avg : Option ℚ) : List RelayCmd :=
  match warm_avg, cold_avg with
  | some w, some c =>
      let warm_target := (static_targets p).1
      let cold_target := (static_targets p).2
      (if w < warm_target - p.hysteresis then [(RelayName.HEAT, true)]
       else if w > warm_target then [(RelayName.HEAT, false)]
       else [])
      ++ (if c > cold_target + p.hysteresis then [(RelayName.COOL, true)]
          else if c < cold_target then [(RelayName.COOL, false)]
          else [])
      ++ (if |w - c| > p.temp_diff + p.hysteresis then
            [(RelayName.BHEAT, true), (RelayName.BCOOL, true)]
          else if |w - c| < p.temp_diff then
            [(RelayName.BHEAT, false), (RelayName.BCOOL, false)]
          else [])
  | _, _ => []

/-- `ShuttleboxGUI.perform_dynamic_temperature_control`, as the list of
relay commands one evaluation issues.  `relays` is the relay state the
evaluation starts from (read via `get_status` in the difference branch).
Fish position encoding: 0 = passage, 1 = left (cold), 2 = right (warm). -/
def perform_dynamic_temperature_control (temp_diff hysteresis : ℚ)
    (warm_avg cold_avg : Option ℚ) (fish_position : Option ℕ)
    (difference_control_active : Bool) (relays : Relays) : List RelayCmd :=
  match warm_avg, cold_avg with
  | some w, some c =>
      let actual_diff := |w - c|
      if difference_control_active then
        if actual_diff < temp_diff then
          let current_heating := relays.heat
          let current_cooling := relays.cool
          if fish_position = some 2 then
            [(RelayName.HEAT, true)]
              ++ (if !current_cooling then [(RelayName.COOL, true)] else [])
          else if fish_position = some 1 then
            [(RelayName.COOL, true)]
              ++ (if !current_heating then [(RelayName.HEAT, true)] else [])
          else if fish_position = some 0 then
            (if current_heating && !current_cooling then [(RelayName.COOL, true)]
             else if current_cooling && !current_heating then [(RelayName.HEAT, true)]
             else [])
          else []
        else if actual_diff > temp_diff + hysteresis then
          (if fish_position = some 2 then [(RelayName.HEAT, true), (RelayName.COOL, false)]
           else if fish_position = some 1 then [(RelayName.COOL, true), (RelayName.HEAT, false)]
           else [])
          ++ [(RelayName.BHEAT, true), (RelayName.BCOOL, true)]
        else
          (if fish_position = some 2 then [(RelayName.HEAT, true), (RelayName.COOL, false)]
           else if fish_position = some 1 then [(RelayName.COOL, true), (RelayName.HEAT, false)]
           else [])
          ++ [(RelayName.BHEAT, false), (RelayName.BCOOL, false)]
      else
        (if fish_position = some 2 then [(RelayName.HEAT, true), (RelayName.COOL, false)]
         else if fish_position = some 1 then [(RelayName.COOL, true), (RelayName.HEAT, false)]
         else [])
        ++ (if actual_diff > temp_diff + hysteresis then
              [(RelayName.BHEAT, true), (RelayName.BCOOL, true)]
            else if actual_diff < temp_diff then
              [(RelayName.BHEAT, false), (RelayName.BCOOL, false)]
            else [])
  | _, _ => []

/-- The control-relevant state of `ShuttleboxGUI`: current relay state
(writes assumed successful) and the mode flags. -/
structure CtlState where
  relays : Relays
  static_control_active : Bool
  dynamic_control_active : Bool
  difference_control_active : Bool
  persistent_manual_mode : Bool
deriving DecidableEq

/-- `ShuttleboxGUI.__init__`: everything off, Manual mode. -/
def CtlState.start : CtlState :=
  { relays := Relays.allOff,
    static_control_active := false,
    dynamic_control_active := false,
    difference_control_active := false,
    persistent_manual_mode := false }

/-- The rejection reasons surfaced by the mode-entry functions (the GUI
shows them as message boxes with descriptive text). -/
inductive CtrlError where
  | invalid_params
  | no_valid_readings
  | invalid_fish_position
  | not_connected
deriving DecidableEq

/-- The retry loop of `toggle_static_control`: up to 3 attempts to obtain
both side averages, breaking at the first attempt where both are
available; after the loop the variables hold the last attempt's values.
`f n` is the pair returned by `get_warm_side_average` /
`get_cold_side_average` on attempt `n`. -/
def retry_averages (f : ℕ → Option ℚ × Option ℚ) : Option ℚ × Option ℚ :=
  match f 0 with
  | (some w, some c) => (some w, some c)
  | _ =>
      match f 1 with
      | (some w, some c) => (some w, some c)
      | _ => f 2

/-- `ShuttleboxGUI.toggle_static_control`.  When static control is active
it stops it, returning to Manual mode and commanding all relays off.
Otherwise it validates the parameters, runs the 3-attempt average check,
and on success deactivates dynamic control and activates static control;
on failure the state is unchanged, no relay command is issued, and a
reason is reported.  Result: (new state, relay commands issued,
rejection reason). -/
def toggle_static_control (p : StaticParams) (f : ℕ → Option ℚ × Option ℚ)
    (st : CtlState) : CtlState × List RelayCmd × Option CtrlError :=
  if st.static_control_active then
    ({ st with static_control_active := false,
               relays := apply_cmds st.relays emergency_stop_cmds },
     emergency_stop_cmds, none)
  else
    if valid_static_params p then
      match retry_averages f with
      | (some _, some _) =>
          ({ st with dynamic_control_active := false,
                     difference_control_active := false,
                     static_control_active := true }, [], none)
      | _ => (st, [], some CtrlError.no_valid_readings)
    else (st, [], some CtrlError.invalid_params)

/-- `ShuttleboxGUI.toggle_dynamic_control`.  Requires the IR sensor to be
connected unless persistent manual mode is on.  When dynamic control is
active it stops it (and difference control), commanding all relays off.
Otherwise it validates the parameter, checks the two side averages once
(a single call pair, no retry loop in the source), checks that the fish
position is one of 0, 1, 2, and on success deactivates static control and
activates dynamic control; on failure the state is unchanged, no relay
command is issued, and a reason is reported. -/
def toggle_dynamic_control (temp_diff : ℚ) (f : ℕ → Option ℚ × Option ℚ)
    (fish_position : Option ℕ) (ir_connected : Bool) (st : CtlState) :
    CtlState × List RelayCmd × Option CtrlError :=
  if !ir_connected && !st.persistent_manual_mode then
    (st, [], some CtrlError.not_connected)
  else if st.dynamic_control_active then
    ({ st with dynamic_control_active := false,
               difference_control_active := false,
               relays := apply_cmds st.relays emergency_stop_cmds },
     emergency_stop_cmds, none)
  else if valid_dynamic_params temp_diff then
    match f 0 with
    | (some _, some _) =>
        match fish_position with
        | some pos =>
            if pos = 0 ∨ pos = 1 ∨ pos = 2 then
              ({ st with static_control_active := false,
                         dynamic_control_active := true }, [], none)
            else (st, [], some CtrlError.invalid_fish_position)
        | none => (st, [], some CtrlError.invalid_fish_position)
    | _ => (st, [], some CtrlError.no_valid_readings)
  else (st, [], some CtrlError.invalid_params)

/-- `ShuttleboxGUI.toggle_difference_control`: only flips the difference
flag while dynamic control is active. -/
def toggle_difference_control (st : CtlState) : CtlState × Option CtrlError :=
  if !st.dynamic_control_active then (st, some CtrlError.invalid_params)
  else ({ st with difference_control_active := !st.difference_control_active }, none)

/-- The automated-control dispatch of one `update_gui` tick (with plotting
active): static control when its flag is set, else dynamic control when
its flag is set, else nothing. -/
def control_tick (p : StaticParams) (warm_avg cold_avg : Option ℚ)
    (fish_position : Option ℕ) (st : CtlState) : CtlState :=
  if st.static_control_active then
    { st with relays :=
        apply_cmds st.relays (perform_static_temperature_control p warm_avg cold_avg) }
  else if st.dynamic_control_active then
    let cmds :=
      perform_dynamic_temperature_control p.temp_diff p.hysteresis warm_avg cold_avg
        fish_position st.difference_control_active st.relays
    { st with relays := apply_cmds st.relays cmds }
  else st

/-- The operator- and timer-driven events of the control state machine. -/
inductive GuiEvent where
  | toggle_static (p : StaticParams) (f : ℕ → Option ℚ × Option ℚ)
  | toggle_dynamic (temp_diff : ℚ) (f : ℕ → Option ℚ × Option ℚ)
      (fish_position : Option ℕ) (ir_connected : Bool)
  | toggle_difference
  | tick (p : StaticParams) (warm_avg cold_avg : Option ℚ) (fish_position : Option ℕ)
  | stop_all

/-- One step of the control state machine. -/
def gui_step (st : CtlState) : GuiEvent → CtlState
  | GuiEvent.toggle_static p f => (toggle_static_control p f st).1
  | GuiEvent.toggle_dynamic td f pos ir => (toggle_dynamic_control td f pos ir st).1
  | GuiEvent.toggle_difference => (toggle_difference_control st).1
  | GuiEvent.tick p w c pos => control_tick p w c pos st
  | GuiEvent.stop_all =>
      { st with relays := apply_cmds st.relays emergency_stop_cmds,
                static_control_active := false,
                dynamic_control_active := false,
                difference_control_active := false }

/-- Run the control state machine from the initial GUI state. -/
def gui_run (evs : List GuiEvent) : CtlState :=
  evs.foldl gui_step CtlState.start

/-- `ShuttleboxGUI.get_fish_temperature`: requires the TC-08 plotting path
and the IR sensor (`ir_connected`); with both side averages available it
returns the warm average at position 2 (right), the mean of the two
averages at position 0 (passage), the cold average at position 1 (left),
and nothing at any other position; with either average unavailable it
returns nothing. -/
def get_fish_temperature (ir_connected : Bool) (fish_position : Option ℕ)
    (warm_avg cold_avg : Option ℚ) : Option ℚ :=
  if !ir_connected then none
  else
    match warm_avg, cold_avg with
    | some w, some c =>
        match fish_position with
        | some 2 => some w
        | some 0 => some ((w + c) / 2)
        | some 1 => some c
        | _ => none
    | _, _ => none

/-- Modelled from the claim's words (for comparison with
`get_fish_temperature`): the organism temperature requires only the
warm average at position 2 (right), only the cold average at position 1
(left), and both at position 0 (passage). -/
def organism_temperature_claim (fish_position : Option ℕ)
    (warm_avg cold_avg : Option ℚ) : Option ℚ :=
  match fish_position with
  | some 2 => warm_avg
  | some 1 => cold_avg
  | some 0 =>
      match warm_avg, cold_avg with
      | some w, some c => some ((w + c) / 2)
      | _, _ => none
  | _ => none

/-- The position-override state of `ShuttleboxGUI`: the persistent-mode
checkbox, the override value, the IR sensor's stored `fish_position`, and
the fire times of the `root.after(3000, ...)` callbacks scheduled by
momentary corrections and not yet fired (in scheduling order, which is
also fire-time order). -/
structure PositionOverrideState where
  persistent_manual_mode : Bool
  manual_position_override : Option ℕ
  ir_fish_position : ℕ
  pending_reverts : List ℚ
deriving DecidableEq

/-- `ShuttleboxGUI.set_manual_fish_position` at wall-clock time `now`
(operator confirming the dialog).  In persistent mode the override is set
directly.  In momentary mode the override is set, the value is also
written into the IR sensor's stored position
(`IRSensorController.override_fish_position`), and a
`return_to_automatic_after_correction` callback is scheduled 3 seconds
out — without cancelling any earlier pending callback. -/
def set_manual_fish_position (st : PositionOverrideState) (now : ℚ) (position : ℕ) :
    PositionOverrideState :=
  if st.persistent_manual_mode then
    { st with manual_position_override := some position }
  else
    { st with manual_position_override := some position,
              ir_fish_position := position,
              pending_reverts := st.pending_reverts ++ [now + 3] }

/-- `ShuttleboxGUI.return_to_automatic_after_correction`: clears the
override only when persistent mode is off and an override is present. -/
def return_to_automatic_after_correction (st : PositionOverrideState) :
    PositionOverrideState :=
  if st.persistent_manual_mode = false ∧ st.manual_position_override ≠ none then
    { st with manual_position_override := none }
  else st

/-- The earliest pending scheduled callback fires: it is removed from the
pending list and `return_to_automatic_after_correction` runs. -/
def fire_earliest_revert (st : PositionOverrideState) : PositionOverrideState :=
  match st.pending_reverts with
  | [] => st
  | _ :: rest => return_to_automatic_after_correction { st with pending_reverts := rest }

/-- The POSITION branch of `IRSensorController._process_message`: a
position message from the sensor updates the stored position. -/
def process_position_message (st : PositionOverrideState) (position : ℕ) :
    PositionOverrideState :=
  { st with ir_fish_position := position }

/-- `ShuttleboxGUI.get_current_fish_position`: the manual override takes
precedence; otherwise the IR sensor's stored position when the sensor is
connected; otherwise nothing. -/
def get_current_fish_position (st : PositionOverrideState) (ir_connected : Bool) :
    Option ℕ :=
  match st.manual_position_override with
  | some p => some p
  | none => if ir_connected then some st.ir_fish_position else none

/-- The plotting/aggregation series of `ShuttleboxGUI`: per configured
channel the temperature history and its timestamps (channel order is
configuration order: the first three channels are the warm side), plus
the warm-average, cold-average, average-timestamp and fish-temperature
series. -/
structure PlotState where
  temperature_data : List (List ℚ)
  temperature_timestamps : List (List ℚ)
  warm_avg_data : List ℚ
  cold_avg_data : List ℚ
  avg_timestamps : List ℚ
  fish_temp_data : List ℚ
  fish_temp_timestamps : List ℚ
deriving DecidableEq

/-- Empty series for the six configured channels. -/
def PlotState.start : PlotState :=
  { temperature_data := [[], [], [], [], [], []],
    temperature_timestamps := [[], [], [], [], [], []],
    warm_avg_data := [],
    cold_avg_data := [],
    avg_timestamps := [],
    fish_temp_data := [],
    fish_temp_timestamps := [] }

/-- The per-channel eviction loop of `update_temperature_plot`: pop the
front of the data and timestamp lists while the oldest timestamp is older
than the cutoff. -/
def evict_old (cutoff : ℚ) : List ℚ → List ℚ → List ℚ × List ℚ
  | d, [] => (d, [])
  | d, t :: ts => if t < cutoff then evict_old cutoff d.tail ts else (d, t :: ts)

/-- One channel's update in `update_temperature_plot`: a valid reading is
appended with its timestamp, old points are evicted, and the safety
point-count ceiling is enforced by keeping only the most recent
`maxPoints` entries. -/
def update_channel (now cutoff : ℚ) (maxPoints : ℕ) (reading : Option ℚ)
    (d ts : List ℚ) : List ℚ × List ℚ :=
  match reading with
  | none => (d, ts)
  | some temp =>
      let d1 := d ++ [temp]
      let ts1 := ts ++ [now]
      let p := evict_old cutoff d1 ts1
      if p.1.length > maxPoints then
        (p.1.drop (p.1.length - maxPoints), p.2.drop (p.2.length - maxPoints))
      else p

/-- Mean of a list of temperatures (used only on nonempty lists). -/
def list_avg (l : List ℚ) : ℚ := l.sum / l.length

/-- The average-series eviction loop of `update_temperature_plot`: while
the oldest average timestamp is older than the cutoff, pop the front of
the warm and cold series when nonempty and of the timestamp series. -/
def evict_avgs (cutoff : ℚ) : List ℚ → List ℚ → List ℚ → List ℚ × List ℚ × List ℚ
  | warm, cold, [] => (warm, cold, [])
  | warm, cold, t :: ts =>
      if t < cutoff then evict_avgs cutoff warm.tail cold.tail ts
      else (warm, cold, t :: ts)

/-- `ShuttleboxGUI.get_warm_side_average` (and its cold twin), over the
stored per-channel histories: the mean of the most recent stored value of
each channel that has one, or nothing when no channel has data. -/
def latest_side_average (channels_data : List (List ℚ)) : Option ℚ :=
  let latests := channels_data.filterMap (fun d => d.getLast?)
  if latests = [] then none else some (list_avg latests)

/-- One tick of `ShuttleboxGUI.update_temperature_plot` over the series
state.  `readings` pairs with the six configured channels in order
(`none` for a reading with an error).  A tick where every channel errored
returns early with no state change.  Otherwise: per-channel append /
evict / cap; the warm (resp. cold) average series grows only when a
warm-side (resp. cold-side) channel produced a valid reading this tick;
the average timestamp series grows with the warm series; the average
series are then evicted and capped; finally the fish-temperature series
grows when the IR sensor is connected and a fish temperature is
computable, and is trimmed from the front down to the longer of the two
average series. -/
def update_temperature_plot (now plot_period : ℚ) (maxPoints : ℕ)
    (readings : List (Option ℚ)) (ir_connected : Bool) (fish_position : Option ℕ)
    (st : PlotState) : PlotState :=
  if readings.all (fun r => r.isNone) ∧ readings ≠ [] then st
  else
    let cutoff := now - plot_period
    let updated := ((st.temperature_data.zip st.temperature_timestamps).zip readings).map
      (fun x => update_channel now cutoff maxPoints x.2 x.1.1 x.1.2)
    let data1 := updated.map Prod.fst
    let ts1 := updated.map Prod.snd
    let warm_temps := (readings.take 3).filterMap id
    let cold_temps := (readings.drop 3).filterMap id
    let warm1 :=
      if warm_temps ≠ [] then st.warm_avg_data ++ [list_avg warm_temps]
      else st.warm_avg_data
    let avgts1 :=
      if warm_temps ≠ [] ∧
          (st.avg_timestamps.length = 0 ∨ st.avg_timestamps.length < warm1.length) then
        st.avg_timestamps ++ [now]
      else st.avg_timestamps
    let cold1 :=
      if cold_temps ≠ [] then st.cold_avg_data ++ [list_avg cold_temps]
      else st.cold_avg_data
    let e := evict_avgs cutoff warm1 cold1 avgts1
    let warm2 := e.1
    let cold2 := e.2.1
    let avgts2 := e.2.2
    let warm3 := if avgts2.length > maxPoints then warm2.drop (warm2.length - maxPoints) else warm2
    let cold3 := if avgts2.length > maxPoints then cold2.drop (cold2.length - maxPoints) else cold2
    let avgts3 := if avgts2.length > maxPoints then avgts2.drop (avgts2.length - maxPoints) else avgts2
    let ft := get_fish_temperature ir_connected fish_position
      (latest_side_average (data1.take 3)) (latest_side_average (data1.drop 3))
    let fish1 :=
      match ft with
      | some v =>
          if warm_temps ≠ [] ∨ cold_temps ≠ [] then
            let grown := st.fish_temp_data ++ [v]
            let max_avg_length := max warm3.length cold3.length
            if grown.length > max_avg_length then grown.drop (grown.length - max_avg_length)
            else grown
          else st.fish_temp_data
      | none => st.fish_temp_data
    { temperature_data := data1,
      temperature_timestamps := ts1,
      warm_avg_data := warm3,
      cold_avg_data := cold3,
      avg_timestamps := avgts3,
      fish_temp_data := fish1,
      fish_temp_timestamps := st.fish_temp_timestamps }

/-- Keep the last `k` entries of a series (`l[-k:]`). -/
def keep_last (k : ℕ) (l : List ℚ) : List ℚ := l.drop (l.length - k)

/-- The candidate lengths scanned by
`ShuttleboxGUI._synchronize_plot_arrays`: for each channel with nonempty
data, the data length and the timestamp length; then the lengths of the
warm, cold and average-timestamp series when nonempty. -/
def synchronize_candidates (st : PlotState) : List ℕ :=
  ((st.temperature_data.zip st.temperature_timestamps).foldr
    (fun dt acc => if dt.1 ≠ ([] : List ℚ) then dt.1.length :: dt.2.length :: acc else acc)
    [])
  ++ (if st.warm_avg_data ≠ [] then [st.warm_avg_data.length] else [])
  ++ (if st.cold_avg_data ≠ [] then [st.cold_avg_data.length] else [])
  ++ (if st.avg_timestamps ≠ [] then [st.avg_timestamps.length] else [])

/-- The minimum candidate length, or nothing when every scanned series is
empty (the Python `float('inf')` case). -/
def min_plot_length (st : PlotState) : Option ℕ :=
  match synchronize_candidates st with
  | [] => none
  | x :: xs => some (xs.foldl min x)

/-- `ShuttleboxGUI._synchronize_plot_arrays`: when a positive minimum
length exists, trim every channel series and the warm/cold/timestamp
series to their last `min_length` entries; the fish series (and its
timestamps) are trimmed only when longer than `min_length`. -/
def synchronize_plot_arrays (st : PlotState) : PlotState :=
  match min_plot_length st with
  | none => st
  | some k =>
      if k = 0 then st
      else
        { temperature_data := st.temperature_data.map (keep_last k),
          temperature_timestamps := st.temperature_timestamps.map (keep_last k),
          warm_avg_data := keep_last k st.warm_avg_data,
          cold_avg_data := keep_last k st.cold_avg_data,
          avg_timestamps := keep_last k st.avg_timestamps,
          fish_temp_data :=
            if st.fish_temp_data.length > k then keep_last k st.fish_temp_data
            else st.fish_temp_data,
          fish_temp_timestamps :=
            if st.fish_temp_data.length > k then keep_last k st.fish_temp_timestamps
            else st.fish_temp_timestamps }

/-! ## Theorems -/

theorem write_digital_line_preserves_sync (st : DAQState) (r : RelayName) (v ok : Bool)
    (h : st.relay_states = st.desired_states) :
    (write_digital_line st r v ok).1.relay_states
      = (write_digital_line st r v ok).1.desired_states := by
  unfold write_digital_line
  split <;> simp [h]

theorem daq_emergency_stop_preserves_sync (st : DAQState) (a b c d : Bool)
    (h : st.relay_states = st.desired_states) :
    (daq_emergency_stop st a b c d).relay_states
      = (daq_emergency_stop st a b c d).desired_states := by
  unfold daq_emergency_stop
  exact write_digital_line_preserves_sync _ _ _ _
    (write_digital_line_preserves_sync _ _ _ _
      (write_digital_line_preserves_sync _ _ _ _
        (write_digital_line_preserves_sync _ _ _ _ h)))

theorem applyOp_preserves_sync (st : DAQState) (op : DAQOp)
    (h : st.relay_states = st.desired_states) :
    (st.applyOp op).relay_states = (st.applyOp op).desired_states := by
  cases op with
  | set_heating v ok => exact write_digital_line_preserves_sync _ _ _ _ h
  | set_cooling v ok => exact write_digital_line_preserves_sync _ _ _ _ h
  | set_buffer_heating v ok => exact write_digital_line_preserves_sync _ _ _ _ h
  | set_buffer_cooling v ok => exact write_digital_line_preserves_sync _ _ _ _ h
  | emergency_stop a b c d => exact daq_emergency_stop_preserves_sync _ _ _ _ _ h

theorem run_preserves_sync (ops : List DAQOp) (st : DAQState)
    (h : st.relay_states = st.desired_states) :
    (st.run ops).relay_states = (st.run ops).desired_states := by
  induction ops generalizing st with
  | nil => exact h
  | cons op rest ih =>
      have : st.run (op :: rest) = (st.applyOp op).run rest := rfl
      rw [this]
      exact ih (st.applyOp op) (applyOp_preserves_sync st op h)

/-- Claim C10: starting from a freshly connected DAQ controller, after any
sequence of `set_heating` / `set_cooling` / `set_buffer_heating` /
`set_buffer_cooling` / `emergency_stop` operations the confirmed relay
state equals the desired relay state for each of the four relays (in
particular after sequences whose writes all succeed), and
`get_relay_sync_status` reports `synced = true` and `timeout = false` for
every relay; a failed write (missing task or hardware error) leaves the
whole controller state, desired and confirmed alike, unchanged. -/
theorem daq_confirmed_matches_desired :
    (∀ (ops : List DAQOp) (r : RelayName),
      (DAQState.connectedInit.run ops).relay_states.get r
        = (DAQState.connectedInit.run ops).desired_states.get r
      ∧ (get_relay_sync_status (DAQState.connectedInit.run ops) r).synced = true
      ∧ (get_relay_sync_status (DAQState.connectedInit.run ops) r).timeout = false)
    ∧ (∀ (st : DAQState) (r : RelayName) (v ok : Bool),
        st.tasks.get r = false ∨ ok = false → write_digital_line st r v ok = (st, false)) := by
  constructor
  · intro ops r
    have h : (DAQState.connectedInit.run ops).relay_states
        = (DAQState.connectedInit.run ops).desired_states :=
      run_preserves_sync ops DAQState.connectedInit rfl
    exact ⟨by rw [h], rfl, rfl⟩
  · intro st r v ok h
    unfold write_digital_line
    rcases h with h | h <;> simp [h]

/-- Witness for C10 at concrete inputs. -/
theorem daq_confirmed_matches_desired_witness :
    ((DAQState.connectedInit.run
        [DAQOp.set_heating true true, DAQOp.set_cooling true true,
         DAQOp.emergency_stop true true true true]).relay_states.get RelayName.HEAT
      = (DAQState.connectedInit.run
        [DAQOp.set_heating true true, DAQOp.set_cooling true true,
         DAQOp.emergency_stop true true true true]).desired_states.get RelayName.HEAT)
    ∧ write_digital_line DAQState.connectedInit RelayName.HEAT true false
        = (DAQState.connectedInit, false) :=
  ⟨(daq_confirmed_matches_desired.1
      [DAQOp.set_heating true true, DAQOp.set_cooling true true,
       DAQOp.emergency_stop true true true true] RelayName.HEAT).1,
   daq_confirmed_matches_desired.2 DAQState.connectedInit RelayName.HEAT true false
     (Or.inr rfl)⟩

/-- Claim C1: for every prior relay and mode-flag state, the GUI-level
`emergency_stop` (with its four underlying writes succeeding) sets all
four relay desired states to false, also confirms them off, and forces
the mode back to Manual (all three control flags false); calling it again
from the resulting state leaves that state unchanged. -/
theorem emergency_stop_resets_and_idempotent (st : GuiDaqState)
    (h : st.daq.tasks = Relays.allOn) :
    (gui_emergency_stop st true true true true).daq.desired_states = Relays.allOff
    ∧ (gui_emergency_stop st true true true true).daq.relay_states = Relays.allOff
    ∧ (gui_emergency_stop st true true true true).flags = ⟨false, false, false⟩
    ∧ gui_emergency_stop (gui_emergency_stop st true true true true) true true true true
        = gui_emergency_stop st true true true true := by
  obtain ⟨⟨rs, ds, tk⟩, fl⟩ := st
  simp only [GuiDaqState.mk.injEq] at h ⊢
  subst h
  simp [gui_emergency_stop, daq_emergency_stop, write_digital_line, Relays.get,
    Relays.set, Relays.allOn, Relays.allOff]

/-- Witness for C1 at a concrete prior state. -/
theorem emergency_stop_resets_and_idempotent_witness :
    (gui_emergency_stop
        (⟨⟨⟨true, true, false, true⟩, ⟨false, true, true, false⟩, Relays.allOn⟩,
          ⟨true, false, true⟩⟩ : GuiDaqState) true true true true).daq.desired_states
      = Relays.allOff
    ∧ (gui_emergency_stop
        (⟨⟨⟨true, true, false, true⟩, ⟨false, true, true, false⟩, Relays.allOn⟩,
          ⟨true, false, true⟩⟩ : GuiDaqState) true true true true).daq.relay_states
      = Relays.allOff
    ∧ (gui_emergency_stop
        (⟨⟨⟨true, true, false, true⟩, ⟨false, true, true, false⟩, Relays.allOn⟩,
          ⟨true, false, true⟩⟩ : GuiDaqState) true true true true).flags
      = ⟨false, false, false⟩
    ∧ gui_emergency_stop
        (gui_emergency_stop
          (⟨⟨⟨true, true, false, true⟩, ⟨false, true, true, false⟩, Relays.allOn⟩,
            ⟨true, false, true⟩⟩ : GuiDaqState) true true true true) true true true true
      = gui_emergency_stop
          (⟨⟨⟨true, true, false, true⟩, ⟨false, true, true, false⟩, Relays.allOn⟩,
            ⟨true, false, true⟩⟩ : GuiDaqState) true true true true :=
  emergency_stop_resets_and_idempotent _ rfl

/-- Claim C4: a heartbeat received at time `T` on a connected link,
followed by silence, classifies the link healthy at every query time up
to `T + 15` (leaving the device state unchanged, so repeated queries keep
reporting healthy), classifies it unhealthy at any query time strictly
after `T + 15`, and the next heartbeat at `T2` immediately restores the
healthy classification. -/
theorem heartbeat_health_classification (st : SerialDevice) (T t t2 T2 t3 : ℚ)
    (hc : st.connected = true) (h1 : t ≤ T + heartbeat_timeout)
    (h2 : T + heartbeat_timeout < t2) (h3 : t3 ≤ T2 + heartbeat_timeout) :
    (is_connection_healthy (receive_heartbeat st T) t).1 = true
    ∧ (is_connection_healthy (receive_heartbeat st T) t).2 = receive_heartbeat st T
    ∧ (is_connection_healthy (receive_heartbeat st T) t2).1 = false
    ∧ (is_connection_healthy
        (receive_heartbeat ((is_connection_healthy (receive_heartbeat st T) t2).2) T2)
        t3).1 = true := by
  have hnot : ¬ t - T > heartbeat_timeout := by
    unfold heartbeat_timeout at h1 ⊢; linarith
  have hyes : t2 - T > heartbeat_timeout := by
    unfold heartbeat_timeout at h2 ⊢; linarith
  have hnot3 : ¬ t3 - T2 > heartbeat_timeout := by
    unfold heartbeat_timeout at h3 ⊢; linarith
  simp [is_connection_healthy, receive_heartbeat, hnot, hyes, hnot3, hc]

/-- Witness for C4: heartbeat at 0, healthy at 10, degraded at 16,
healthy again after the next heartbeat at 20. -/
theorem heartbeat_health_classification_witness :
    (is_connection_healthy (receive_heartbeat ⟨true, none, true⟩ 0) 10).1 = true
    ∧ (is_connection_healthy (receive_heartbeat ⟨true, none, true⟩ 0) 10).2
        = receive_heartbeat ⟨true, none, true⟩ 0
    ∧ (is_connection_healthy (receive_heartbeat ⟨true, none, true⟩ 0) 16).1 = false
    ∧ (is_connection_healthy
        (receive_heartbeat
          ((is_connection_healthy (receive_heartbeat ⟨true, none, true⟩ 0) 16).2) 20)
        30).1 = true :=
  heartbeat_health_classification ⟨true, none, true⟩ 0 10 16 20 30 rfl
    (by norm_num [heartbeat_timeout]) (by norm_num [heartbeat_timeout])
    (by norm_num [heartbeat_timeout])

theorem run_read_cycles_all_failed (cycles : List (List Bool)) (n : ℕ)
    (h : ∀ c ∈ cycles, c.all (fun e => e) = true) :
    run_read_cycles n cycles = n + cycles.length := by
  induction cycles generalizing n with
  | nil => simp [run_read_cycles]
  | cons c cs ih =>
      have hc : c.all (fun e => e) = true := h c (List.mem_cons_self c cs)
      have hcs : ∀ x ∈ cs, x.all (fun e => e) = true :=
        fun x hx => h x (List.mem_cons_of_mem c hx)
      have hstep : run_read_cycles n (c :: cs) = run_read_cycles (n + 1) cs := by
        simp [run_read_cycles, read_temperatures_failures, hc]
      rw [hstep, ih (n + 1) hcs]
      simp [List.length_cons]
      omega

/-- Claim C5: each read cycle in which every configured channel errors
increments the consecutive-failure counter by one, so five such
consecutive cycles make `needs_reconnection` with threshold 5 true; any
cycle with at least one valid channel reading resets the counter to 0,
making `needs_reconnection` with threshold 5 false again. -/
theorem consecutive_failures_reconnection (n : ℕ) (cycles : List (List Bool))
    (cycle : List Bool) (hall : ∀ c ∈ cycles, c.all (fun e => e) = true)
    (hlen : cycles.length = 5) (hvalid : cycle.all (fun e => e) = false) :
    (∀ c : List Bool, c.all (fun e => e) = true →
      read_temperatures_failures n c = n + 1)
    ∧ run_read_cycles n cycles = n + 5
    ∧ needs_reconnection (run_read_cycles n cycles) 5 = true
    ∧ read_temperatures_failures n cycle = 0
    ∧ needs_reconnection (read_temperatures_failures n cycle) 5 = false := by
  have h5 : run_read_cycles n cycles = n + 5 := by
    rw [run_read_cycles_all_failed cycles n hall, hlen]
  refine ⟨?_, h5, ?_, ?_, ?_⟩
  · intro c hc
    simp [read_temperatures_failures, hc]
  · rw [h5]
    simp [needs_reconnection]
  · simp [read_temperatures_failures, hvalid]
  · simp [read_temperatures_failures, hvalid, needs_reconnection]

/-- Witness for C5: five all-failed cycles from counter 0, then one cycle
with a valid reading. -/
theorem consecutive_failures_reconnection_witness :
    run_read_cycles 0 [[true], [true], [true], [true], [true]] = 0 + 5
    ∧ needs_reconnection (run_read_cycles 0 [[true], [true], [true], [true], [true]]) 5 = true
    ∧ read_temperatures_failures 0 [false] = 0
    ∧ needs_reconnection (read_temperatures_failures 0 [false]) 5 = false :=
  ⟨(consecutive_failures_reconnection 0 [[true], [true], [true], [true], [true]] [false]
      (by decide) (by decide) (by decide)).2.1,
   (consecutive_failures_reconnection 0 [[true], [true], [true], [true], [true]] [false]
      (by decide) (by decide) (by decide)).2.2.1,
   (consecutive_failures_reconnection 0 [[true], [true], [true], [true], [true]] [false]
      (by decide) (by decide) (by decide)).2.2.2.1,
   (consecutive_failures_reconnection 0 [[true], [true], [true], [true], [true]] [false]
      (by decide) (by decide) (by decide)).2.2.2.2⟩

theorem apply_cmds_append (r : Relays) (l1 l2 : List RelayCmd) :
    apply_cmds r (l1 ++ l2) = apply_cmds (apply_cmds r l1) l2 := by
  simp [apply_cmds]

theorem apply_heatcool_preserves_buffers (cmds : List RelayCmd) (r : Relays)
    (h : ∀ x ∈ cmds, x.1 = RelayName.HEAT ∨ x.1 = RelayName.COOL) :
    (apply_cmds r cmds).bheat = r.bheat ∧ (apply_cmds r cmds).bcool = r.bcool := by
  induction cmds generalizing r with
  | nil => exact ⟨rfl, rfl⟩
  | cons c cs ih =>
      have hc : c.1 = RelayName.HEAT ∨ c.1 = RelayName.COOL :=
        h c (List.mem_cons_self c cs)
      have hcs : ∀ x ∈ cs, x.1 = RelayName.HEAT ∨ x.1 = RelayName.COOL :=
        fun x hx => h x (List.mem_cons_of_mem c hx)
      have hstep : apply_cmds r (c :: cs) = apply_cmds (r.set c.1 c.2) cs := rfl
      have hb : (r.set c.1 c.2).bheat = r.bheat ∧ (r.set c.1 c.2).bcool = r.bcool := by
        rcases hc with h1 | h1 <;> rw [h1] <;> exact ⟨rfl, rfl⟩
      obtain ⟨e1, e2⟩ := ih (r.set c.1 c.2) hcs
      exact ⟨by rw [hstep, e1, hb.1], by rw [hstep, e2, hb.2]⟩

theorem apply_buffer_preserves_heatcool (cmds : List RelayCmd) (r : Relays)
    (h : ∀ x ∈ cmds, x.1 = RelayName.BHEAT ∨ x.1 = RelayName.BCOOL) :
    (apply_cmds r cmds).heat = r.heat ∧ (apply_cmds r cmds).cool = r.cool := by
  induction cmds generalizing r with
  | nil => exact ⟨rfl, rfl⟩
  | cons c cs ih =>
      have hc : c.1 = RelayName.BHEAT ∨ c.1 = RelayName.BCOOL :=
        h c (List.mem_cons_self c cs)
      have hcs : ∀ x ∈ cs, x.1 = RelayName.BHEAT ∨ x.1 = RelayName.BCOOL :=
        fun x hx => h x (List.mem_cons_of_mem c hx)
      have hstep : apply_cmds r (c :: cs) = apply_cmds (r.set c.1 c.2) cs := rfl
      have hb : (r.set c.1 c.2).heat = r.heat ∧ (r.set c.1 c.2).cool = r.cool := by
        rcases hc with h1 | h1 <;> rw [h1] <;> exact ⟨rfl, rfl⟩
      obtain ⟨e1, e2⟩ := ih (r.set c.1 c.2) hcs
      exact ⟨by rw [hstep, e1, hb.1], by rw [hstep, e2, hb.2]⟩

theorem static_side_cmds_heatcool (p : StaticParams) (w c : ℚ) :
    ∀ x ∈ ((if w < (static_targets p).1 - p.hysteresis then [(RelayName.HEAT, true)]
            else if w > (static_targets p).1 then [(RelayName.HEAT, false)]
            else ([] : List RelayCmd))
          ++ (if c > (static_targets p).2 + p.hysteresis then [(RelayName.COOL, true)]
              else if c < (static_targets p).2 then [(RelayName.COOL, false)]
              else ([] : List RelayCmd))),
      x.1 = RelayName.HEAT ∨ x.1 = RelayName.COOL := by
  intro x hx
  rcases List.mem_append.1 hx with h | h
  · split at h
    · simp at h
      simp [h]
    · split at h
      · simp at h
        simp [h]
      · simp at h
  · split at h
    · simp at h
      simp [h]
    · split at h
      · simp at h
        simp [h]
      · simp at h

/-- Claim C3: in Static mode with warm average 24.0, cold average 26.5,
target difference 2.0, hysteresis 0.2, start side warm and start
temperature 25.0, one evaluation computes warm target 25.0 and cold
target 23.0 and commands Heat on, Cool on and both buffer relays on; in
general the buffer pair turns on when the actual side difference exceeds
`temp_diff + hysteresis`, turns off when it falls below `temp_diff`, and
is left unchanged inside the band. -/
theorem static_control_example_and_buffer_band :
    (static_targets ⟨25, 1/5, 2, StartSide.warm⟩ = (25, 23)
      ∧ perform_static_temperature_control ⟨25, 1/5, 2, StartSide.warm⟩
          (some 24) (some (53/2))
        = [(RelayName.HEAT, true), (RelayName.COOL, true),
           (RelayName.BHEAT, true), (RelayName.BCOOL, true)])
    ∧ (∀ (p : StaticParams) (w c : ℚ) (r : Relays),
        (|w - c| > p.temp_diff + p.hysteresis →
          (apply_cmds r (perform_static_temperature_control p (some w) (some c))).bheat = true
          ∧ (apply_cmds r (perform_static_temperature_control p (some w) (some c))).bcool = true)
        ∧ (0 ≤ p.hysteresis → |w - c| < p.temp_diff →
          (apply_cmds r (perform_static_temperature_control p (some w) (some c))).bheat = false
          ∧ (apply_cmds r (perform_static_temperature_control p (some w) (some c))).bcool = false)
        ∧ (p.temp_diff ≤ |w - c| → |w - c| ≤ p.temp_diff + p.hysteresis →
          (apply_cmds r (perform_static_temperature_control p (some w) (some c))).bheat = r.bheat
          ∧ (apply_cmds r (perform_static_temperature_control p (some w) (some c))).bcool = r.bcool)) := by
  constructor
  · constructor
    · norm_num [static_targets]
    · norm_num [perform_static_temperature_control, static_targets, abs]
  · intro p w c r
    refine ⟨?_, ?_, ?_⟩
    · intro h
      simp only [perform_static_temperature_control, if_pos h]
      rw [apply_cmds_append, apply_cmds_append]
      constructor <;> simp [apply_cmds, Relays.set]
    · intro hh h
      have hno : ¬ |w - c| > p.temp_diff + p.hysteresis := by
        push_neg
        linarith
      simp only [perform_static_temperature_control, if_neg hno, if_pos h]
      rw [apply_cmds_append, apply_cmds_append]
      constructor <;> simp [apply_cmds, Relays.set]
    · intro h1 h2
      have hno : ¬ |w - c| > p.temp_diff + p.hysteresis := not_lt.2 h2
      have hno2 : ¬ |w - c| < p.temp_diff := not_lt.2 h1
      simp only [perform_static_temperature_control, if_neg hno, if_neg hno2,
        List.append_nil]
      exact apply_heatcool_preserves_buffers _ r (static_side_cmds_heatcool p w c)

/-- Witness for C3 at concrete inputs: gap 5 above band 3 turns the
buffers on, gap 1 below target 2 turns them off, gap exactly 2 leaves
them unchanged. -/
theorem static_control_example_and_buffer_band_witness :
    ((apply_cmds ⟨false, false, true, false⟩
        (perform_static_temperature_control ⟨25, 1, 2, StartSide.warm⟩
          (some 30) (some 25))).bheat = true
      ∧ (apply_cmds ⟨false, false, true, false⟩
          (perform_static_temperature_control ⟨25, 1, 2, StartSide.warm⟩
            (some 30) (some 25))).bcool = true)
    ∧ ((apply_cmds ⟨false, false, true, false⟩
        (perform_static_temperature_control ⟨25, 1, 2, StartSide.warm⟩
          (some 25) (some 24))).bheat = false
      ∧ (apply_cmds ⟨false, false, true, false⟩
          (perform_static_temperature_control ⟨25, 1, 2, StartSide.warm⟩
            (some 25) (some 24))).bcool = false)
    ∧ ((apply_cmds ⟨false, false, true, false⟩
        (perform_static_temperature_control ⟨25, 1, 2, StartSide.warm⟩
          (some 27) (some 25))).bheat = true
      ∧ (apply_cmds ⟨false, false, true, false⟩
          (perform_static_temperature_control ⟨25, 1, 2, StartSide.warm⟩
            (some 27) (some 25))).bcool = false) :=
  ⟨(static_control_example_and_buffer_band.2 ⟨25, 1, 2, StartSide.warm⟩ 30 25
      ⟨false, false, true, false⟩).1 (by norm_num [abs]),
   (static_control_example_and_buffer_band.2 ⟨25, 1, 2, StartSide.warm⟩ 25 24
      ⟨false, false, true, false⟩).2.1 (by norm_num) (by norm_num [abs]),
   (static_control_example_and_buffer_band.2 ⟨25, 1, 2, StartSide.warm⟩ 27 25
      ⟨false, false, true, false⟩).2.2 (by norm_num [abs]) (by norm_num [abs])⟩

/-- Counterexample to claim C8: at position 2 (right) with the warm
average available and the cold average unavailable,
`get_fish_temperature` returns nothing, while the claim requires only the
warm average there and would return it. -/
theorem fish_temperature_requires_both_averages :
    get_fish_temperature true (some 2) (some 24) none = none
    ∧ organism_temperature_claim (some 2) (some 24) none = some 24
    ∧ get_fish_temperature true (some 2) (some 24) none
        ≠ organism_temperature_claim (some 2) (some 24) none := by
  refine ⟨rfl, rfl, ?_⟩
  decide

/-- Claim C8 (amended): the fish temperature is the warm average at
position 2 (right), the cold average at position 1 (left) and the mean of
the two averages at position 0 (passage); it is unavailable whenever
either side average is unavailable — regardless of position — or the
position is unknown or out of range, or the IR sensor is not connected. -/
theorem fish_temperature_composition (w c : ℚ) (wo co : Option ℚ) (pos : Option ℕ) :
    get_fish_temperature true (some 2) (some w) (some c) = some w
    ∧ get_fish_temperature true (some 1) (some w) (some c) = some c
    ∧ get_fish_temperature true (some 0) (some w) (some c) = some ((w + c) / 2)
    ∧ get_fish_temperature true none (some w) (some c) = none
    ∧ (∀ k : ℕ, get_fish_temperature true (some (k + 3)) (some w) (some c) = none)
    ∧ get_fish_temperature true pos none co = none
    ∧ get_fish_temperature true pos wo none = none
    ∧ get_fish_temperature false pos wo co = none := by
  refine ⟨rfl, rfl, rfl, rfl, ?_, ?_, ?_, rfl⟩
  · intro k
    rcases k with _ | _ | k <;> rfl
  · rcases co with _ | cv <;> rfl
  · rcases wo with _ | wv <;> rfl

/-- Counterexample to claim C2: a reachable sequence — enter Static mode
with valid parameters and readings, then run one control tick with warm
average 24 and cold average 26.5 — ends in Static mode with the Heat and
the Cool relay desired states both on. -/
theorem static_mode_heat_and_cool_both_on :
    (gui_run
      [GuiEvent.toggle_static ⟨25, 1/5, 2, StartSide.warm⟩
          (fun _ => (some 24, some (53/2))),
       GuiEvent.tick ⟨25, 1/5, 2, StartSide.warm⟩ (some 24) (some (53/2))
          none]).static_control_active = true
    ∧ (gui_run
      [GuiEvent.toggle_static ⟨25, 1/5, 2, StartSide.warm⟩
          (fun _ => (some 24, some (53/2))),
       GuiEvent.tick ⟨25, 1/5, 2, StartSide.warm⟩ (some 24) (some (53/2))
          none]).relays.heat = true
    ∧ (gui_run
      [GuiEvent.toggle_static ⟨25, 1/5, 2, StartSide.warm⟩
          (fun _ => (some 24, some (53/2))),
       GuiEvent.tick ⟨25, 1/5, 2, StartSide.warm⟩ (some 24) (some (53/2))
          none]).relays.cool = true := by
  norm_num [gui_run, gui_step, toggle_static_control, valid_static_params,
    retry_averages, control_tick, perform_static_temperature_control, static_targets,
    apply_cmds, Relays.set, CtlState.start, Relays.allOff, abs]

theorem dynamic_buffer_cmds_buffer (td hy w c : ℚ) :
    ∀ x ∈ (if |w - c| > td + hy then
              [(RelayName.BHEAT, true), (RelayName.BCOOL, true)]
            else if |w - c| < td then
              [(RelayName.BHEAT, false), (RelayName.BCOOL, false)]
            else ([] : List RelayCmd)),
      x.1 = RelayName.BHEAT ∨ x.1 = RelayName.BCOOL := by
  intro x hx
  split at hx
  · simp at hx
    rcases hx with rfl | rfl
    · exact Or.inl rfl
    · exact Or.inr rfl
  · split at hx
    · simp at hx
      rcases hx with rfl | rfl
      · exact Or.inl rfl
      · exact Or.inr rfl
    · simp at hx

/-- Claim C2 (amended): under plain Dynamic mode (difference control off)
a control evaluation never newly turns both Heat and Cool on — from any
relay state where they are not both on, the evaluation leaves them not
both on, and an evaluation with the fish on a side (position 1 or 2)
always leaves Heat and Cool mutually exclusive regardless of prior state.
Under Static mode, Heat (driving the warm side) and Cool (driving the
cold side) may legitimately be commanded on simultaneously, as the C3
scenario shows, since they act on different sides. -/
theorem dynamic_plain_mutual_exclusion (td hy w c : ℚ) (wo co : Option ℚ)
    (pos : Option ℕ) (r : Relays) :
    (¬(r.heat = true ∧ r.cool = true) →
      ¬((apply_cmds r (perform_dynamic_temperature_control td hy wo co pos false r)).heat = true
        ∧ (apply_cmds r (perform_dynamic_temperature_control td hy wo co pos false r)).cool = true))
    ∧ ((pos = some 1 ∨ pos = some 2) →
      ¬((apply_cmds r
          (perform_dynamic_temperature_control td hy (some w) (some c) pos false r)).heat = true
        ∧ (apply_cmds r
            (perform_dynamic_temperature_control td hy (some w) (some c) pos false r)).cool = true)) := by
  have key : ∀ (w' c' : ℚ), ¬(r.heat = true ∧ r.cool = true) ∨ pos = some 1 ∨ pos = some 2 →
      ¬((apply_cmds r (perform_dynamic_temperature_control td hy (some w') (some c') pos false r)).heat = true
        ∧ (apply_cmds r (perform_dynamic_temperature_control td hy (some w') (some c') pos false r)).cool = true) := by
    intro w' c' hcase
    by_cases hp2 : pos = some 2
    · subst hp2
      simp only [perform_dynamic_temperature_control, Bool.false_eq_true, if_false,
        if_pos rfl, if_true]
      split <;> (try split) <;> simp [apply_cmds, Relays.set]
    · by_cases hp1 : pos = some 1
      · subst hp1
        simp only [perform_dynamic_temperature_control, Bool.false_eq_true, if_false,
          if_neg (show ¬((some (1:ℕ)) = some 2) by decide), if_pos rfl, if_true]
        split <;> (try split) <;> simp [apply_cmds, Relays.set]
      · rcases hcase with hne | hp | hp
        · by_cases hgt : |w' - c'| > td + hy
          · simpa [perform_dynamic_temperature_control, hp1, hp2, hgt, apply_cmds,
              Relays.set] using hne
          · by_cases hlt : |w' - c'| < td
            · simpa [perform_dynamic_temperature_control, hp1, hp2, hgt, hlt, apply_cmds,
                Relays.set] using hne
            · simpa [perform_dynamic_temperature_control, hp1, hp2, hgt, hlt, apply_cmds,
                Relays.set] using hne
        · exact absurd hp hp1
        · exact absurd hp hp2
  constructor
  · intro hne
    rcases wo with _ | wv
    · simpa [perform_dynamic_temperature_control, apply_cmds] using hne
    · rcases co with _ | cv
      · simpa [perform_dynamic_temperature_control, apply_cmds] using hne
      · exact key wv cv (Or.inl hne)
  · intro hpos
    exact key w c (Or.inr hpos)

/-- Witness for the amended C2 at concrete inputs: a passage tick from a
heat-only state, and a left-side tick from an arbitrary both-on state. -/
theorem dynamic_plain_mutual_exclusion_witness :
    ¬((apply_cmds ⟨true, false, false, false⟩
        (perform_dynamic_temperature_control 2 1 (some 24) (some 26) (some 0) false
          ⟨true, false, false, false⟩)).heat = true
      ∧ (apply_cmds ⟨true, false, false, false⟩
          (perform_dynamic_temperature_control 2 1 (some 24) (some 26) (some 0) false
            ⟨true, false, false, false⟩)).cool = true)
    ∧ ¬((apply_cmds ⟨true, true, false, false⟩
        (perform_dynamic_temperature_control 2 1 (some 24) (some 26) (some 1) false
          ⟨true, true, false, false⟩)).heat = true
      ∧ (apply_cmds ⟨true, true, false, false⟩
          (perform_dynamic_temperature_control 2 1 (some 24) (some 26) (some 1) false
            ⟨true, true, false, false⟩)).cool = true) :=
  ⟨(dynamic_plain_mutual_exclusion 2 1 24 26 (some 24) (some 26) (some 0)
      ⟨true, false, false, false⟩).1 (by decide),
   (dynamic_plain_mutual_exclusion 2 1 24 26 (some 24) (some 26) (some 1)
      ⟨true, true, false, false⟩).2 (Or.inl rfl)⟩

theorem retry_averages_valid (f : ℕ → Option ℚ × Option ℚ)
    (h : (∃ w c, f 0 = (some w, some c)) ∨ (∃ w c, f 1 = (some w, some c))
        ∨ (∃ w c, f 2 = (some w, some c))) :
    ∃ w c, retry_averages f = (some w, some c) := by
  rcases hf0 : f 0 with ⟨_ | w0, _ | c0⟩
  case mk.some.some => exact ⟨w0, c0, by simp [retry_averages, hf0]⟩
  all_goals (
    rcases hf1 : f 1 with ⟨_ | w1, _ | c1⟩
    case mk.some.some => exact ⟨w1, c1, by simp [retry_averages, hf0, hf1]⟩
    all_goals (
      rcases h with ⟨w, c, hh⟩ | ⟨w, c, hh⟩ | h2
      · rw [hf0] at hh
        simp at hh
      · rw [hf1] at hh
        simp at hh
      · obtain ⟨w, c, hh⟩ := h2
        exact ⟨w, c, by simp [retry_averages, hf0, hf1, hh]⟩))

theorem retry_averages_invalid (f : ℕ → Option ℚ × Option ℚ)
    (h0 : (f 0).1 = none ∨ (f 0).2 = none)
    (h1 : (f 1).1 = none ∨ (f 1).2 = none) :
    retry_averages f = f 2 := by
  rcases hf0 : f 0 with ⟨_ | w0, _ | c0⟩
  case mk.some.some =>
    rw [hf0] at h0
    simp at h0
  all_goals (
    rcases hf1 : f 1 with ⟨_ | w1, _ | c1⟩
    case mk.some.some =>
      rw [hf1] at h1
      simp at h1
    all_goals simp [retry_averages, hf0, hf1])

/-- Counterexample to claim C7: with an average source that fails on the
first attempt and succeeds on the later ones, entering Static mode
succeeds (its check is retried), while entering Dynamic mode from the
same initial state is rejected for lack of valid readings — the dynamic
entry checks the averages only once, with no retry. -/
theorem dynamic_entry_no_retry :
    (toggle_static_control ⟨25, 1, 2, StartSide.warm⟩
        (fun n => if n = 0 then (none, none) else (some 24, some 26))
        CtlState.start).1.static_control_active = true
    ∧ toggle_dynamic_control 2
        (fun n => if n = 0 then (none, none) else (some 24, some 26))
        (some 0) true CtlState.start
      = (CtlState.start, [], some CtrlError.no_valid_readings) := by
  constructor
  · decide
  · decide

/-- Claim C7 (amended): entering Static mode requires valid warm and cold
averages with the check retried up to 3 times (succeeding when any of the
three attempts sees both); entering Dynamic mode requires valid averages
from a single check (no retry in the source) and a fish position in
{0, 1, 2}; whenever a precondition fails the transition is rejected with
a descriptive reason, the control state is unchanged and no relay command
is issued. -/
theorem mode_entry_preconditions (p : StaticParams) (td : ℚ)
    (f : ℕ → Option ℚ × Option ℚ) (pos : Option ℕ) (st : CtlState)
    (hs : st.static_control_active = false) :
    (valid_static_params p →
      ((∃ w c, f 0 = (some w, some c)) ∨ (∃ w c, f 1 = (some w, some c))
          ∨ (∃ w c, f 2 = (some w, some c))) →
      (toggle_static_control p f st).1.static_control_active = true
        ∧ (toggle_static_control p f st).2.1 = []
        ∧ (toggle_static_control p f st).2.2 = none)
    ∧ (valid_static_params p →
        ((f 0).1 = none ∨ (f 0).2 = none) → ((f 1).1 = none ∨ (f 1).2 = none) →
        ((f 2).1 = none ∨ (f 2).2 = none) →
      toggle_static_control p f st = (st, [], some CtrlError.no_valid_readings))
    ∧ (st.dynamic_control_active = false → valid_dynamic_params td →
        ((f 0).1 = none ∨ (f 0).2 = none) →
      toggle_dynamic_control td f pos true st = (st, [], some CtrlError.no_valid_readings))
    ∧ (∀ w c, st.dynamic_control_active = false → valid_dynamic_params td →
        f 0 = (some w, some c) → pos = none →
      toggle_dynamic_control td f pos true st
        = (st, [], some CtrlError.invalid_fish_position))
    ∧ (∀ w c k, st.dynamic_control_active = false → valid_dynamic_params td →
        f 0 = (some w, some c) → pos = some k → (k = 0 ∨ k = 1 ∨ k = 2) →
      (toggle_dynamic_control td f pos true st).1.dynamic_control_active = true
        ∧ (toggle_dynamic_control td f pos true st).2.1 = []
        ∧ (toggle_dynamic_control td f pos true st).2.2 = none) := by
  refine ⟨?_, ?_, ?_, ?_, ?_⟩
  · intro hv hex
    obtain ⟨w, c, hr⟩ := retry_averages_valid f hex
    simp [toggle_static_control, hs, hv, hr]
  · intro hv h0 h1 h2
    have hr := retry_averages_invalid f h0 h1
    rcases hf2 : f 2 with ⟨o1, o2⟩
    rw [hf2] at hr h2
    rcases o1 with _ | w2
    · simp [toggle_static_control, hs, hv, hr]
    · rcases o2 with _ | c2
      · simp [toggle_static_control, hs, hv, hr]
      · simp at h2
  · intro hd hv h0
    rcases hf0 : f 0 with ⟨o1, o2⟩
    rw [hf0] at h0
    rcases o1 with _ | w0
    · simp [toggle_dynamic_control, hd, hv, hf0]
    · rcases o2 with _ | c0
      · simp [toggle_dynamic_control, hd, hv, hf0]
      · simp at h0
  · intro w c hd hv hf0 hpos
    subst hpos
    simp [toggle_dynamic_control, hd, hv, hf0]
  · intro w c k hd hv hf0 hpos hk
    subst hpos
    simp [toggle_dynamic_control, hd, hv, hf0, hk]

/-- Witness for the amended C7 at concrete inputs. -/
theorem mode_entry_preconditions_witness :
    ((toggle_static_control ⟨25, 1, 2, StartSide.warm⟩
        (fun _ => (some 24, some 26)) CtlState.start).1.static_control_active = true
      ∧ (toggle_static_control ⟨25, 1, 2, StartSide.warm⟩
          (fun _ => (some 24, some 26)) CtlState.start).2.1 = []
      ∧ (toggle_static_control ⟨25, 1, 2, StartSide.warm⟩
          (fun _ => (some 24, some 26)) CtlState.start).2.2 = none)
    ∧ ((toggle_dynamic_control 2 (fun _ => (some 24, some 26)) (some 0) true
        CtlState.start).1.dynamic_control_active = true
      ∧ (toggle_dynamic_control 2 (fun _ => (some 24, some 26)) (some 0) true
          CtlState.start).2.1 = []
      ∧ (toggle_dynamic_control 2 (fun _ => (some 24, some 26)) (some 0) true
          CtlState.start).2.2 = none) :=
  ⟨(mode_entry_preconditions ⟨25, 1, 2, StartSide.warm⟩ 2 (fun _ => (some 24, some 26))
      (some 0) CtlState.start rfl).1 (by decide) (Or.inl ⟨24, 26, rfl⟩),
   (mode_entry_preconditions ⟨25, 1, 2, StartSide.warm⟩ 2 (fun _ => (some 24, some 26))
      (some 0) CtlState.start rfl).2.2.2.2 24 26 0 rfl (by decide) rfl rfl (Or.inl rfl)⟩

/-- Counterexample to claim C6: momentary override to position 2 at time
0, then a new momentary override to position 1 at time 1.  The first
scheduled callback is not cancelled: both expiries remain pending
(times 3 and 4), and when the earliest fires at time 3 — before the
claimed new expiry 1 + 3 = 4 — the override is cleared, so a sensor
report (position 0) arriving between times 3 and 4 determines the
resolved position instead of the supposedly still-active override. -/
theorem momentary_override_not_restarted :
    (set_manual_fish_position
        (set_manual_fish_position ⟨false, none, 0, []⟩ 0 2) 1 1).pending_reverts = [3, 4]
    ∧ (fire_earliest_revert
        (set_manual_fish_position
          (set_manual_fish_position ⟨false, none, 0, []⟩ 0 2) 1 1)).manual_position_override
      = none
    ∧ get_current_fish_position
        (process_position_message
          (fire_earliest_revert
            (set_manual_fish_position
              (set_manual_fish_position ⟨false, none, 0, []⟩ 0 2) 1 1)) 0) true
      = some 0 := by
  refine ⟨?_, ?_, ?_⟩ <;>
    norm_num [set_manual_fish_position, fire_earliest_revert,
      return_to_automatic_after_correction, process_position_message,
      get_current_fish_position] <;>
    decide

/-- Claim C6 (amended): a momentary override installed at time `now`
schedules an auto-revert at `now + 3` and takes effect immediately (the
corrected value is also written into the sensor's stored position); with
no further override, firing that callback clears the override and returns
resolution to the sensor-reported value.  Installing a second momentary
override while one is pending does not restart the delay: the first
callback remains scheduled at `now + 3` and, when it fires, clears the
new override before `now2 + 3`.  A persistent override schedules no
callback and is never cleared by a firing callback. -/
theorem momentary_override_behaviour (st : PositionOverrideState)
    (now now2 : ℚ) (p p2 : ℕ) :
    (st.persistent_manual_mode = false →
      (set_manual_fish_position st now p).pending_reverts
          = st.pending_reverts ++ [now + 3]
      ∧ (set_manual_fish_position st now p).manual_position_override = some p
      ∧ get_current_fish_position (set_manual_fish_position st now p) true = some p)
    ∧ (st.persistent_manual_mode = false → st.pending_reverts = [] →
      (fire_earliest_revert (set_manual_fish_position st now p)).manual_position_override
          = none
      ∧ (fire_earliest_revert (set_manual_fish_position st now p)).pending_reverts = []
      ∧ get_current_fish_position
          (fire_earliest_revert (set_manual_fish_position st now p)) true
        = some (set_manual_fish_position st now p).ir_fish_position
      ∧ (set_manual_fish_position st now p).ir_fish_position = p)
    ∧ (st.persistent_manual_mode = false → st.pending_reverts = [] →
      (set_manual_fish_position
          (set_manual_fish_position st now p) now2 p2).pending_reverts
        = [now + 3, now2 + 3]
      ∧ (fire_earliest_revert
          (set_manual_fish_position
            (set_manual_fish_position st now p) now2 p2)).manual_position_override
        = none)
    ∧ (st.persistent_manual_mode = true →
      (set_manual_fish_position st now p).pending_reverts = st.pending_reverts
      ∧ (fire_earliest_revert st).manual_position_override
          = st.manual_position_override
      ∧ get_current_fish_position (set_manual_fish_position st now p) true = some p) := by
  refine ⟨?_, ?_, ?_, ?_⟩
  · intro h
    simp [set_manual_fish_position, get_current_fish_position, h]
  · intro h hp
    simp [set_manual_fish_position, fire_earliest_revert,
      return_to_automatic_after_correction, get_current_fish_position, h, hp]
  · intro h hp
    simp [set_manual_fish_position, fire_earliest_revert,
      return_to_automatic_after_correction, h, hp]
  · intro h
    refine ⟨by simp [set_manual_fish_position, h], ?_,
      by simp [set_manual_fish_position, get_current_fish_position, h]⟩
    cases hpr : st.pending_reverts with
    | nil => simp [fire_earliest_revert, hpr]
    | cons t rest =>
        simp [fire_earliest_revert, return_to_automatic_after_correction, hpr, h]

/-- Witness for the amended C6 at concrete inputs. -/
theorem momentary_override_behaviour_witness :
    ((set_manual_fish_position ⟨false, none, 0, []⟩ 0 2).pending_reverts = [] ++ [0 + 3]
      ∧ (set_manual_fish_position ⟨false, none, 0, []⟩ 0 2).manual_position_override = some 2
      ∧ get_current_fish_position (set_manual_fish_position ⟨false, none, 0, []⟩ 0 2) true
          = some 2)
    ∧ ((set_manual_fish_position ⟨true, some 2, 0, []⟩ 0 1).pending_reverts = []
      ∧ (fire_earliest_revert ⟨true, some 2, 0, []⟩).manual_position_override = some 2
      ∧ get_current_fish_position (set_manual_fish_position ⟨true, some 2, 0, []⟩ 0 1) true
          = some 1) :=
  ⟨(momentary_override_behaviour ⟨false, none, 0, []⟩ 0 1 2 1).1 rfl,
   (momentary_override_behaviour ⟨true, some 2, 0, []⟩ 0 1 1 1).2.2.2 rfl⟩

/-- Counterexample to claim C9: from empty series, one tick in which only
a warm-side channel produces a valid reading (all cold-side channels
error) grows the warm-average series to length 1 while the cold-average
and fish-temperature series stay at length 0 — the three series do not
have equal length after the tick completes. -/
theorem aggregator_series_lengths_diverge :
    (update_temperature_plot 0 300 300 [some 24, none, none, none, none, none]
        true (some 0) PlotState.start).warm_avg_data.length = 1
    ∧ (update_temperature_plot 0 300 300 [some 24, none, none, none, none, none]
        true (some 0) PlotState.start).cold_avg_data.length = 0
    ∧ (update_temperature_plot 0 300 300 [some 24, none, none, none, none, none]
        true (some 0) PlotState.start).fish_temp_data.length = 0 := by
  refine ⟨?_, ?_, ?_⟩ <;>
    norm_num [update_temperature_plot, PlotState.start, update_channel, evict_old,
      evict_avgs, list_avg, latest_side_average, get_fish_temperature, keep_last] <;>
    decide

theorem foldl_min_le_of_mem (xs : List ℕ) (x : ℕ) :
    ∀ y ∈ x :: xs, xs.foldl min x ≤ y := by
  induction xs generalizing x with
  | nil =>
      intro y hy
      simp at hy
      simp [hy]
  | cons a as ih =>
      intro y hy
      have hbase : as.foldl min (min x a) ≤ min x a :=
        ih (min x a) (min x a) (List.mem_cons_self _ _)
      rcases List.mem_cons.1 hy with rfl | hy2
      · exact le_trans hbase (min_le_left _ _)
      · rcases List.mem_cons.1 hy2 with rfl | hy3
        · exact le_trans hbase (min_le_right _ _)
        · exact ih (min x a) y (List.mem_cons_of_mem _ hy3)

theorem min_plot_length_le (st : PlotState) (k : ℕ)
    (hk : min_plot_length st = some k) :
    ∀ c ∈ synchronize_candidates st, k ≤ c := by
  unfold min_plot_length at hk
  rcases hc : synchronize_candidates st with _ | ⟨x, xs⟩ <;> rw [hc] at hk
  · simp at hk
  · simp at hk
    rw [← hk]
    exact foldl_min_le_of_mem xs x

theorem mem_foldr_lengths (l : List (List ℚ × List ℚ)) (dt : List ℚ × List ℚ)
    (hm : dt ∈ l) (hne : dt.1 ≠ []) :
    dt.1.length ∈ l.foldr
        (fun dt2 acc2 =>
          if dt2.1 ≠ ([] : List ℚ) then dt2.1.length :: dt2.2.length :: acc2 else acc2) []
    ∧ dt.2.length ∈ l.foldr
        (fun dt2 acc2 =>
          if dt2.1 ≠ ([] : List ℚ) then dt2.1.length :: dt2.2.length :: acc2 else acc2) [] := by
  induction l with
  | nil => simp at hm
  | cons a as ih =>
      rcases List.mem_cons.1 hm with rfl | hm2
      · constructor <;> simp [List.foldr_cons, hne]
      · have hih := ih hm2
        constructor
        · simp only [List.foldr_cons]
          split
          · exact List.mem_cons_of_mem _ (List.mem_cons_of_mem _ hih.1)
          · exact hih.1
        · simp only [List.foldr_cons]
          split
          · exact List.mem_cons_of_mem _ (List.mem_cons_of_mem _ hih.2)
          · exact hih.2

theorem keep_last_length (k : ℕ) (l : List ℚ) (h : k ≤ l.length) :
    (keep_last k l).length = k := by
  simp [keep_last]
  omega

/-- Claim C9 (amended): the warm/cold/organism series can drift to
different lengths — a tick with valid readings on only one side grows
that side's average series alone (counterexample above); re-alignment
happens only in the recovery routine `_synchronize_plot_arrays`, invoked
when plotting hits a shape mismatch, which trims every scanned nonempty
series (per-channel data and timestamps, warm, cold, average timestamps)
to the minimum length found among them, and trims the fish series only
when it is longer. -/
theorem synchronize_trims_to_min (st : PlotState) (k : ℕ)
    (hk : min_plot_length st = some k) (hpos : 0 < k) :
    (st.warm_avg_data ≠ [] → (synchronize_plot_arrays st).warm_avg_data.length = k)
    ∧ (st.cold_avg_data ≠ [] → (synchronize_plot_arrays st).cold_avg_data.length = k)
    ∧ (st.avg_timestamps ≠ [] → (synchronize_plot_arrays st).avg_timestamps.length = k)
    ∧ (∀ dt ∈ st.temperature_data.zip st.temperature_timestamps, dt.1 ≠ [] →
        (keep_last k dt.1).length = k ∧ (keep_last k dt.2).length = k)
    ∧ (synchronize_plot_arrays st).fish_temp_data.length
        = min st.fish_temp_data.length k := by
  have hle := min_plot_length_le st k hk
  have hkne : ¬ k = 0 := by omega
  simp only [synchronize_plot_arrays, hk, if_neg hkne]
  refine ⟨?_, ?_, ?_, ?_, ?_⟩
  · intro h
    have hmem : st.warm_avg_data.length ∈ synchronize_candidates st := by
      simp [synchronize_candidates, h]
    exact keep_last_length k _ (hle _ hmem)
  · intro h
    have hmem : st.cold_avg_data.length ∈ synchronize_candidates st := by
      simp [synchronize_candidates, h]
    exact keep_last_length k _ (hle _ hmem)
  · intro h
    have hmem : st.avg_timestamps.length ∈ synchronize_candidates st := by
      simp [synchronize_candidates, h]
    exact keep_last_length k _ (hle _ hmem)
  · intro dt hdt hne
    have hm := mem_foldr_lengths _ dt hdt hne
    have h1 : dt.1.length ∈ synchronize_candidates st := by
      unfold synchronize_candidates
      simp only [List.mem_append]
      tauto
    have h2 : dt.2.length ∈ synchronize_candidates st := by
      unfold synchronize_candidates
      simp only [List.mem_append]
      tauto
    exact ⟨keep_last_length k _ (hle _ h1), keep_last_length k _ (hle _ h2)⟩
  · by_cases hf : st.fish_temp_data.length > k
    · simp only [if_pos hf, keep_last, List.length_drop]
      omega
    · simp only [if_neg hf]
      omega

/-- Witness for the amended C9 at a concrete diverged state (minimum
scanned length 1). -/
theorem synchronize_trims_to_min_witness :
    (synchronize_plot_arrays
        (⟨[[1, 2], [3]], [[1, 2], [3]], [5, 6], [7], [8, 9], [10, 11, 12],
          [10, 11, 12]⟩ : PlotState)).warm_avg_data.length = 1
    ∧ (synchronize_plot_arrays
        (⟨[[1, 2], [3]], [[1, 2], [3]], [5, 6], [7], [8, 9], [10, 11, 12],
          [10, 11, 12]⟩ : PlotState)).fish_temp_data.length
      = min ([10, 11, 12] : List ℚ).length 1 :=
  ⟨(synchronize_trims_to_min
      (⟨[[1, 2], [3]], [[1, 2], [3]], [5, 6], [7], [8, 9], [10, 11, 12],
        [10, 11, 12]⟩ : PlotState) 1 rfl (by decide)).1 (by decide),
   (synchronize_trims_to_min
      (⟨[[1, 2], [3]], [[1, 2], [3]], [5, 6], [7], [8, 9], [10, 11, 12],
        [10, 11, 12]⟩ : PlotState) 1 rfl (by decide)).2.2.2.2⟩
